import Mathlib

/-!
Verification of the vbmc-vsphere virtual BMC against its specification.

The Lean definitions below are shallow embeddings of the Go source:

* `Message`, `Message.Pack`, `Message.Unpack` embed `ipmi/message.go`
  (the legacy RMCP codec).  Machine bytes are `Nat` with explicit
  `% 256` where the Go code converts, and 32-bit values are `Nat`
  with explicit `% 2 ^ 32` where overflow can occur.
* `LANPlus` and its operations embed `pkg/ipmi/lanplus.go` (the
  RMCP+ client).  The UDP connection is replaced by an explicit
  trace of sent datagrams and by passing the received datagram as
  an argument; the HMAC-SHA1 function is a parameter, since none of
  the verified properties depend on its value.
* `IPMI2Simulator` and its handlers embed `bmc/ipmi2_simulator.go`.
* `Bmc.Server` embeds the chassis command handlers of the server in
  package `bmc`; `IpmiV1.Server` embeds the older handlers of the
  server in package `ipmi`.  Hypervisor calls are recorded in a
  trace, and their outcomes are supplied by a `VsClient` oracle.
* `ipRange`, `incrementIP` and the fleet-startup address loop embed
  `main.go`.  Go slices are mutable and `net.IP` values alias their
  backing array; the embedding makes the mutation explicit by
  returning the updated value.

Reads of byte buffers are modelled with `List.get?`, and every
decoder returns a distinguished out-of-bounds result when an index
would fall outside the buffer, so that "never reads past the end of
the buffer" is a provable statement about the embedding.
-/

namespace VBMC

/-! ## Supporting byte-level lemmas -/

/-- Or-ing a value shifted past `k` bits with a value below `2 ^ k`
is plain addition.  Used to decode the big- and little-endian
multi-byte fields. -/
theorem two_pow_mul_lor_of_lt {k b : Nat} (a : Nat) (hb : b < 2 ^ k) :
    (2 ^ k * a) ||| b = 2 ^ k * a + b := by
  induction k generalizing a b with
  | zero =>
    have hb0 : b = 0 := Nat.lt_one_iff.mp hb
    subst hb0
    simp
  | succ k ih =>
    have hbit : Nat.bit (decide (b % 2 = 1)) (b >>> 1) = b :=
      Nat.bit_decide_mod_two_eq_one_shiftRight_one b
    have hdiv : b >>> 1 = b / 2 := Nat.shiftRight_one b
    have hb2 : b >>> 1 < 2 ^ k := by
      rw [hdiv]
      omega
    have hleft : 2 ^ (k + 1) * a = Nat.bit false (2 ^ k * a) := by
      rw [Nat.bit_val]
      simp [Nat.pow_succ]
      ring
    calc 2 ^ (k + 1) * a ||| b
        = Nat.bit false (2 ^ k * a) ||| Nat.bit (decide (b % 2 = 1)) (b >>> 1) := by
          rw [hleft, hbit]
      _ = Nat.bit (false || decide (b % 2 = 1)) ((2 ^ k * a) ||| (b >>> 1)) :=
          Nat.lor_bit false (2 ^ k * a) (decide (b % 2 = 1)) (b >>> 1)
      _ = Nat.bit (decide (b % 2 = 1)) (2 ^ k * a + b >>> 1) := by
          rw [Bool.false_or, ih a hb2]
      _ = 2 ^ (k + 1) * a + b := by
          rw [Nat.bit_val, hdiv]
          have h2 : 2 ^ (k + 1) * a = 2 * (2 ^ k * a) := by ring
          rw [h2]
          rcases Nat.mod_two_eq_zero_or_one b with h | h <;> simp [h] <;> omega

/-- Shift-left form of `two_pow_mul_lor_of_lt`. -/
theorem shiftLeft_lor_of_lt {k b : Nat} (a : Nat) (hb : b < 2 ^ k) :
    a <<< k ||| b = a * 2 ^ k + b := by
  rw [Nat.shiftLeft_eq, Nat.mul_comm a (2 ^ k), two_pow_mul_lor_of_lt a hb,
    Nat.mul_comm (2 ^ k) a]

/-! ## Legacy RMCP codec: `ipmi/message.go` -/

/-- `Message` from `ipmi/message.go`: RMCP header fields followed by
the session header, command and data.  Byte fields are `Nat` values
below 256 and 32-bit fields are `Nat` values below `2 ^ 32` for
well-formed messages. -/
structure Message where
  Version : Nat
  Reserved : Nat
  Seq : Nat
  Class : Nat
  AuthType : Nat
  SessionID : Nat
  Sequence : Nat
  Command : Nat
  Data : List Nat
deriving Repr, DecidableEq

/-- Well-formedness of a `Message`: every field fits the machine
type it has in the Go source. -/
def Message.WF (m : Message) : Prop :=
  m.Version < 256 ∧ m.Reserved < 256 ∧ m.Seq < 256 ∧ m.Class < 256 ∧
  m.AuthType < 256 ∧ m.SessionID < 2 ^ 32 ∧ m.Sequence < 2 ^ 32 ∧
  m.Command < 256 ∧ ∀ b ∈ m.Data, b < 256

instance (m : Message) : Decidable m.WF := by
  unfold Message.WF
  infer_instance

/-- `Message.Pack` from `ipmi/message.go`: RMCP header, session
header (auth type, five reserved zero bytes, big-endian session id),
command byte, then the data.  The `Sequence` field is not written.
`byte(x)` conversions become `% 256`. -/
def Message.Pack (m : Message) : List Nat :=
  [m.Version, m.Reserved, m.Seq, m.Class,
   m.AuthType, 0, 0, 0, 0, 0,
   (m.SessionID >>> 24) % 256, (m.SessionID >>> 16) % 256,
   (m.SessionID >>> 8) % 256, m.SessionID % 256,
   m.Command] ++ m.Data

/-- Result of `Message.Unpack`: success, a decode error, or an
out-of-bounds buffer read (which cannot occur, see `C2`). -/
inductive UnpackResult where
  | ok (m : Message)
  | err (msg : String)
  | oob
deriving Repr, DecidableEq

/-- `Message.Unpack` from `ipmi/message.go`, as a function of the
receiver's previous value (Go mutates the receiver in place; fields
it never assigns, such as `Sequence`, keep their old value).  Buffer
reads use `List.get?` and report `oob` when out of bounds.  On the
error paths the Go code returns before using the partially updated
receiver, so only the error is modelled there. -/
def Message.Unpack (m : Message) (data : List Nat) : UnpackResult :=
  if data.length < 15 then .err "message too short"
  else
    match data.get? 0, data.get? 1, data.get? 2, data.get? 3 with
    | some v, some r, some sq, some c =>
      if v ≠ 6 then .err "unsupported RMCP version"
      else if c ≠ 7 then .err "unsupported message class"
      else
        match data.get? 4, data.get? 10, data.get? 11, data.get? 12,
            data.get? 13, data.get? 14 with
        | some a, some s0, some s1, some s2, some s3, some cmd =>
          .ok { m with
                Version := v, Reserved := r, Seq := sq, Class := c,
                AuthType := a,
                SessionID := s0 <<< 24 ||| s1 <<< 16 ||| s2 <<< 8 ||| s3,
                Command := cmd,
                Data := if data.length > 15 then data.drop 15 else m.Data }
        | _, _, _, _, _, _ => .oob
    | _, _, _, _ => .oob

/-- The zero value of `Message`, the receiver a caller decodes into. -/
def zeroMessage : Message :=
  { Version := 0, Reserved := 0, Seq := 0, Class := 0, AuthType := 0,
    SessionID := 0, Sequence := 0, Command := 0, Data := [] }

/-- Decoding a wire buffer: unpack into a fresh (zero) `Message`. -/
def decode (data : List Nat) : UnpackResult :=
  zeroMessage.Unpack data

/-- Composing four bytes with shifts and bitwise or is the usual
base-256 sum. -/
theorem four_bytes_lor {a3 a2 a1 a0 : Nat} (_h3 : a3 < 256) (h2 : a2 < 256)
    (h1 : a1 < 256) (h0 : a0 < 256) :
    a3 <<< 24 ||| a2 <<< 16 ||| a1 <<< 8 ||| a0 =
      a3 * 2 ^ 24 + a2 * 2 ^ 16 + a1 * 2 ^ 8 + a0 := by
  have e3 : a3 <<< 24 = 2 ^ 24 * a3 := by rw [Nat.shiftLeft_eq]; ring
  have e2 : a2 <<< 16 = a2 * 2 ^ 16 := Nat.shiftLeft_eq a2 16
  have e1 : a1 <<< 8 = a1 * 2 ^ 8 := Nat.shiftLeft_eq a1 8
  have s1 : a3 <<< 24 ||| a2 <<< 16 = 2 ^ 16 * (2 ^ 8 * a3 + a2) := by
    rw [e3, e2, two_pow_mul_lor_of_lt a3 (by omega)]
    ring
  have s2 : a3 <<< 24 ||| a2 <<< 16 ||| a1 <<< 8 =
      2 ^ 8 * (2 ^ 8 * (2 ^ 8 * a3 + a2) + a1) := by
    rw [s1, e1, two_pow_mul_lor_of_lt (2 ^ 8 * a3 + a2) (by omega)]
    ring
  rw [s2, two_pow_mul_lor_of_lt (2 ^ 8 * (2 ^ 8 * a3 + a2) + a1) (by omega)]
  ring

/-- The four big-endian session-id bytes written by `Pack` decode
back to the original 32-bit session id. -/
theorem sessionID_bytes_roundtrip {sid : Nat} (h : sid < 2 ^ 32) :
    ((sid >>> 24) % 256) <<< 24 ||| ((sid >>> 16) % 256) <<< 16 |||
      ((sid >>> 8) % 256) <<< 8 ||| sid % 256 = sid := by
  rw [four_bytes_lor (Nat.mod_lt _ (by omega)) (Nat.mod_lt _ (by omega))
    (Nat.mod_lt _ (by omega)) (Nat.mod_lt _ (by omega))]
  simp only [Nat.shiftRight_eq_div_pow]
  omega

/-- C1 (corrected): for every valid legacy frame, decoding the
packed bytes restores every field except `Sequence`, which `Pack`
never serializes and `Unpack` never assigns; the decoded message is
the original frame with `Sequence` reset to the zero receiver's 0.
Round-trip equality therefore holds exactly when `f.Sequence = 0`. -/
theorem C1_roundtrip_except_sequence (m : Message) (hwf : m.WF)
    (hv : m.Version = 6) (hc : m.Class = 7) :
    decode m.Pack = .ok { m with Sequence := 0 } := by
  obtain ⟨h1, h2, h3, h4, h5, hsid, hseq, h8, h9⟩ := hwf
  have hsb := sessionID_bytes_roundtrip hsid
  cases m with
  | mk Version Reserved Seq Class AuthType SessionID Sequence Command Data =>
    simp only at hv hc hsid hsb
    subst hv hc
    cases Data with
    | nil =>
      simp [decode, Message.Unpack, Message.Pack, zeroMessage, List.get?, hsb]
    | cons d ds =>
      simp [decode, Message.Unpack, Message.Pack, zeroMessage, List.get?, hsb,
        List.drop]

/-- C1 witness: a concrete valid frame with `Sequence = 0`
round-trips exactly. -/
theorem C1_roundtrip_except_sequence_witness :
    decode (Message.Pack
      { Version := 6, Reserved := 1, Seq := 2, Class := 7, AuthType := 4,
        SessionID := 3735928559, Sequence := 0, Command := 9,
        Data := [1, 2, 3] }) =
    .ok { Version := 6, Reserved := 1, Seq := 2, Class := 7, AuthType := 4,
          SessionID := 3735928559, Sequence := 0, Command := 9,
          Data := [1, 2, 3] } :=
  C1_roundtrip_except_sequence _ (by decide) rfl rfl

/-- C1 counterexample: a valid legacy frame with `Sequence = 1` does
not round-trip; the decoded message has `Sequence = 0`, so
`decode (encode f) ≠ f`. -/
theorem C1_counterexample :
    decode (Message.Pack
      { Version := 6, Reserved := 0, Seq := 0, Class := 7, AuthType := 0,
        SessionID := 0, Sequence := 1, Command := 0, Data := [] }) ≠
    .ok { Version := 6, Reserved := 0, Seq := 0, Class := 7, AuthType := 0,
          SessionID := 0, Sequence := 1, Command := 0, Data := [] } := by
  decide

/-! ## RMCP+ client: `pkg/ipmi/lanplus.go` and `pkg/ipmi/rmcplus.go` -/

/-- RMCP+ auth-type constant from `pkg/ipmi/rmcplus.go`. -/
def RMCPPLUS_AUTH_NONE : Nat := 0

/-- RMCP+ auth-type constant from `pkg/ipmi/rmcplus.go`. -/
def RMCPPLUS_AUTH_HMAC_SHA1 : Nat := 1

/-- RMCP+ payload-type constant from `pkg/ipmi/rmcplus.go`. -/
def RMCPPLUS_PAYLOAD_IPMI : Nat := 0

/-- `LANPlus` from `pkg/ipmi/lanplus.go`.  The `net.Conn` is
replaced by the `sent` trace of datagrams written to it; the other
fields mirror the Go struct. -/
structure LANPlus where
  sessionID : Nat
  sequenceNum : Nat
  authType : Nat
  username : String
  password : String
  priv : Nat
  active : Bool
  authenticated : Bool
  sent : List (List Nat)
deriving Repr, DecidableEq

/-- `NewLANPlus` with no options: HMAC-SHA1 auth type, Administrator
privilege, everything else zero. -/
def NewLANPlus : LANPlus :=
  { sessionID := 0, sequenceNum := 0, authType := RMCPPLUS_AUTH_HMAC_SHA1,
    username := "", password := "", priv := 4, active := false,
    authenticated := false, sent := [] }

/-- `binary.LittleEndian.PutUint32`: the four little-endian bytes of
a 32-bit value. -/
def le32Bytes (x : Nat) : List Nat :=
  [x % 256, (x >>> 8) % 256, (x >>> 16) % 256, (x >>> 24) % 256]

/-- `binary.LittleEndian.PutUint16`: the two little-endian bytes of
a 16-bit value; larger inputs are truncated as Go's `uint16(x)`. -/
def le16Bytes (x : Nat) : List Nat :=
  [x % 256, (x >>> 8) % 256]

/-- `binary.LittleEndian.Uint32` on a 4-byte slice at offset `i`;
`none` when the read would fall outside the buffer. -/
def readLE32 (l : List Nat) (i : Nat) : Option Nat :=
  match l.get? i, l.get? (i + 1), l.get? (i + 2), l.get? (i + 3) with
  | some a, some b, some c, some d =>
    some (a ||| b <<< 8 ||| c <<< 16 ||| d <<< 24)
  | _, _, _, _ => none

/-- `binary.LittleEndian.Uint16` on a 2-byte slice at offset `i`. -/
def readLE16 (l : List Nat) (i : Nat) : Option Nat :=
  match l.get? i, l.get? (i + 1) with
  | some a, some b => some (a ||| b <<< 8)
  | _, _ => none

/-- Go slice expression `buf[start : start+len]`; `none` when the
bounds fall outside the buffer. -/
def sliceN (l : List Nat) (start len : Nat) : Option (List Nat) :=
  if start + len ≤ l.length then some ((l.drop start).take len) else none

/-- The little-endian 32-bit value at offset `i`, as a total
function (used only in statements, under bounds hypotheses). -/
def le32At (l : List Nat) (i : Nat) : Nat :=
  l.getD i 0 ||| (l.getD (i + 1) 0) <<< 8 ||| (l.getD (i + 2) 0) <<< 16 |||
    (l.getD (i + 3) 0) <<< 24

/-- The little-endian 16-bit value at offset `i`, as a total
function. -/
def le16At (l : List Nat) (i : Nat) : Nat :=
  l.getD i 0 ||| (l.getD (i + 1) 0) <<< 8

/-- `LANPlus.SendMessage` from `pkg/ipmi/lanplus.go`.  `hmac` stands
for HMAC-SHA1, `writeOK` for the success of `conn.Write`.  The
sequence number is a `uint32`, so the increment wraps at `2 ^ 32`. -/
def LANPlus.SendMessage (hmac : String → List Nat → List Nat) (writeOK : Bool)
    (l : LANPlus) (msg : List Nat) : LANPlus × Except String Unit :=
  if !l.active then (l, .error "session not active")
  else
    let buf := [6, 0, 0, 7] ++ [l.authType, RMCPPLUS_PAYLOAD_IPMI] ++
      le32Bytes l.sessionID ++ le32Bytes l.sequenceNum ++
      le16Bytes msg.length ++ msg
    let buf2 := if l.authType ≠ RMCPPLUS_AUTH_NONE ∧ l.authenticated then
      buf ++ hmac l.password buf else buf
    if writeOK then
      ({ l with sent := l.sent ++ [buf2],
                sequenceNum := (l.sequenceNum + 1) % 2 ^ 32 }, .ok ())
    else (l, .error "failed to send message")

/-- Result of `LANPlus.ReceiveMessage`: payload, error, or an
out-of-bounds buffer read (which cannot occur, see `C2`). -/
inductive RecvResult where
  | ok (payload : List Nat)
  | err (msg : String)
  | oob
deriving Repr, DecidableEq

/-- `LANPlus.ReceiveMessage` from `pkg/ipmi/lanplus.go`.  `dgram` is
the datagram read from the connection.  As in the Go source, the
received sequence number is stored into `sequenceNum` as soon as it
is parsed, before the session id is validated. -/
def LANPlus.ReceiveMessage (hmac : String → List Nat → List Nat)
    (l : LANPlus) (dgram : List Nat) : LANPlus × RecvResult :=
  if !l.active then (l, .err "session not active")
  else if dgram.length < 16 then (l, .err "response too short")
  else
    match dgram.get? 0, dgram.get? 3 with
    | some b0, some b3 =>
      if b0 ≠ 6 ∨ b3 ≠ 7 then (l, .err "invalid RMCP header")
      else
        match dgram.get? 4, dgram.get? 5 with
        | some authType, some payloadType =>
          if payloadType ≠ RMCPPLUS_PAYLOAD_IPMI then
            (l, .err "unexpected payload type")
          else
            match readLE32 dgram 6, readLE32 dgram 10, readLE16 dgram 14 with
            | some sessionID, some wireSeq, some payloadLen =>
              let l2 := { l with sequenceNum := wireSeq }
              if sessionID ≠ l.sessionID then (l2, .err "invalid session ID")
              else if 16 + payloadLen > dgram.length then
                (l2, .err "payload length exceeds message size")
              else
                match sliceN dgram 16 payloadLen with
                | some payload =>
                  if authType ≠ RMCPPLUS_AUTH_NONE ∧ l.authenticated then
                    if 16 + payloadLen + 20 > dgram.length then
                      (l2, .err "message too short for authentication code")
                    else
                      match sliceN dgram (16 + payloadLen) 20 with
                      | some receivedAuth =>
                        if receivedAuth = hmac l.password (dgram.take (16 + payloadLen))
                        then (l2, .ok payload)
                        else (l2, .err "authentication failed")
                      | none => (l2, .oob)
                  else (l2, .ok payload)
                | none => (l2, .oob)
            | _, _, _ => (l, .oob)
        | _, _ => (l, .oob)
    | _, _ => (l, .oob)

/-- `LANPlus.openSession` from `pkg/ipmi/lanplus.go`.  `rand` is the
value read from `crypto/rand` (stored little-endian as the session
id, a `uint32`).  The initial RAKP message is built and handed to
`SendMessage`; the function then reports "not yet implemented" if
the send ever succeeded. -/
def LANPlus.openSession (hmac : String → List Nat → List Nat) (writeOK : Bool)
    (rand : Nat) (l : LANPlus) : LANPlus × Except String Unit :=
  let l1 := { l with sessionID := rand % 2 ^ 32 }
  let rakpMsg : List Nat := [16, 0, 0, 0, 0, 0]
  match l1.SendMessage hmac writeOK rakpMsg with
  | (l2, .error e) => (l2, .error ("failed to send RAKP message: " ++ e))
  | (l2, .ok _) => (l2, .error "session establishment not yet implemented")

/-- `LANPlus.Connect` from `pkg/ipmi/lanplus.go`.  `dialOK` stands
for the success of `net.DialTimeout`; `active` is set only when
`openSession` succeeds. -/
def LANPlus.Connect (hmac : String → List Nat → List Nat)
    (dialOK writeOK : Bool) (rand : Nat) (l : LANPlus) :
    LANPlus × Except String Unit :=
  if !dialOK then (l, .error "dial failed")
  else
    match l.openSession hmac writeOK rand with
    | (l2, .error e) => (l2, .error ("session open failed: " ++ e))
    | (l2, .ok _) => ({ l2 with active := true }, .ok ())

/-! ## C2: decode failure conditions and buffer safety -/

/-- An in-bounds `get?` read returns the `getD` value. -/
theorem get?_eq_some_getD {l : List Nat} {i : Nat} (h : i < l.length) :
    l.get? i = some (l.getD i 0) := by
  simp [List.getD_eq_getElem?_getD, List.get?_eq_getElem?,
    List.getElem?_eq_getElem h]

/-- An in-bounds little-endian 32-bit read succeeds with the
`le32At` value. -/
theorem readLE32_eq {l : List Nat} {i : Nat} (h : i + 4 ≤ l.length) :
    readLE32 l i = some (le32At l i) := by
  unfold readLE32 le32At
  rw [get?_eq_some_getD (by omega), get?_eq_some_getD (by omega),
    get?_eq_some_getD (by omega), get?_eq_some_getD (by omega)]

/-- An in-bounds little-endian 16-bit read succeeds with the
`le16At` value. -/
theorem readLE16_eq {l : List Nat} {i : Nat} (h : i + 2 ≤ l.length) :
    readLE16 l i = some (le16At l i) := by
  unfold readLE16 le16At
  rw [get?_eq_some_getD (by omega), get?_eq_some_getD (by omega)]

/-- Whether an unpack attempt failed with a decode error. -/
def UnpackResult.isErr : UnpackResult → Bool
  | .err _ => true
  | _ => false

/-- `Message.Unpack` never performs an out-of-bounds read. -/
theorem Unpack_ne_oob (m : Message) (data : List Nat) :
    m.Unpack data ≠ .oob := by
  unfold Message.Unpack
  by_cases h15 : data.length < 15
  · simp [h15]
  · rw [if_neg h15]
    rw [get?_eq_some_getD (by omega), get?_eq_some_getD (by omega),
      get?_eq_some_getD (by omega), get?_eq_some_getD (by omega)]
    by_cases hv : data[0]?.getD 0 = 6
    · by_cases hc : data[3]?.getD 0 = 7
      · rw [get?_eq_some_getD (by omega), get?_eq_some_getD (by omega),
          get?_eq_some_getD (by omega), get?_eq_some_getD (by omega),
          get?_eq_some_getD (by omega), get?_eq_some_getD (by omega)]
        simp [hv, hc, List.getD_eq_getElem?_getD]
      · simp [hv, hc, List.getD_eq_getElem?_getD]
    · simp [hv, List.getD_eq_getElem?_getD]

/-- `Message.Unpack` fails exactly on a short buffer or an RMCP
version/class mismatch. -/
theorem Unpack_isErr_iff (m : Message) (data : List Nat) :
    (m.Unpack data).isErr = true ↔
      (data.length < 15 ∨ data.getD 0 0 ≠ 6 ∨ data.getD 3 0 ≠ 7) := by
  unfold Message.Unpack
  by_cases h15 : data.length < 15
  · simp [h15, UnpackResult.isErr, List.getD_eq_getElem?_getD]
  · rw [if_neg h15]
    rw [get?_eq_some_getD (by omega), get?_eq_some_getD (by omega),
      get?_eq_some_getD (by omega), get?_eq_some_getD (by omega)]
    by_cases hv : data[0]?.getD 0 = 6
    · by_cases hc : data[3]?.getD 0 = 7
      · rw [get?_eq_some_getD (by omega), get?_eq_some_getD (by omega),
          get?_eq_some_getD (by omega), get?_eq_some_getD (by omega),
          get?_eq_some_getD (by omega), get?_eq_some_getD (by omega)]
        simp [hv, hc, h15, UnpackResult.isErr, List.getD_eq_getElem?_getD]
      · simp [hv, hc, UnpackResult.isErr, List.getD_eq_getElem?_getD]
    · simp [hv, UnpackResult.isErr, List.getD_eq_getElem?_getD]

/-- `LANPlus.ReceiveMessage` never performs an out-of-bounds read. -/
theorem ReceiveMessage_ne_oob (hmac : String → List Nat → List Nat)
    (l : LANPlus) (dgram : List Nat) :
    (l.ReceiveMessage hmac dgram).2 ≠ .oob := by
  unfold LANPlus.ReceiveMessage
  by_cases hact : l.active
  · by_cases h16 : dgram.length < 16
    · simp [hact, h16]
    · rw [hact]
      rw [if_neg (by simp), if_neg h16]
      rw [get?_eq_some_getD (by omega), get?_eq_some_getD (by omega)]
      by_cases hhdr : dgram[0]?.getD 0 ≠ 6 ∨ dgram[3]?.getD 0 ≠ 7
      · simp [hhdr, List.getD_eq_getElem?_getD]
      · rw [get?_eq_some_getD (by omega), get?_eq_some_getD (by omega)]
        by_cases hpt : dgram[5]?.getD 0 ≠ RMCPPLUS_PAYLOAD_IPMI
        · simp [hhdr, hpt, List.getD_eq_getElem?_getD]
        · rw [readLE32_eq (by omega), readLE32_eq (by omega),
            readLE16_eq (by omega)]
          by_cases hsid : le32At dgram 6 ≠ l.sessionID
          · simp [hhdr, hpt, hsid, List.getD_eq_getElem?_getD]
          · by_cases hlen : 16 + le16At dgram 14 > dgram.length
            · simp [hhdr, hpt, hsid, hlen, List.getD_eq_getElem?_getD]
            · have hslice : sliceN dgram 16 (le16At dgram 14) =
                  some ((dgram.drop 16).take (le16At dgram 14)) := by
                unfold sliceN
                rw [if_pos (by omega)]
              by_cases hauth : (dgram[4]?.getD 0 ≠ RMCPPLUS_AUTH_NONE ∧
                  l.authenticated)
              · by_cases hlen2 : 16 + le16At dgram 14 + 20 > dgram.length
                · simp [hhdr, hpt, hsid, hlen, hslice, hauth, hlen2, List.getD_eq_getElem?_getD]
                · have hslice2 : sliceN dgram (16 + le16At dgram 14) 20 =
                      some ((dgram.drop (16 + le16At dgram 14)).take 20) := by
                    unfold sliceN
                    rw [if_pos (by omega)]
                  by_cases hcmp : (dgram.drop (16 + le16At dgram 14)).take 20 =
                      hmac l.password (dgram.take (16 + le16At dgram 14))
                  · simp [hhdr, hpt, hsid, hlen, hslice, hauth, hlen2, hslice2,
                      hcmp, List.getD_eq_getElem?_getD]
                  · simp [hhdr, hpt, hsid, hlen, hslice, hauth, hlen2, hslice2,
                      hcmp, List.getD_eq_getElem?_getD]
              · simp [hhdr, hpt, hsid, hlen, hslice, hauth, List.getD_eq_getElem?_getD]
  · simp [hact]

/-- C2: decoding fails exactly on a short buffer, an RMCP
version/class mismatch, or (for the session-secured receive path) a
declared payload length exceeding the buffer; and no decoder ever
reads an index past the end of the buffer.  The legacy codec
declares no payload length, so its failures are exactly the first
two conditions; the RMCP+ receive path reports the payload-length
overflow once the frame reaches that check. -/
theorem C2_decode_failure_conditions :
    (∀ (m : Message) (data : List Nat), m.Unpack data ≠ .oob) ∧
    (∀ (m : Message) (data : List Nat),
      ((m.Unpack data).isErr = true ↔
        (data.length < 15 ∨ data.getD 0 0 ≠ 6 ∨ data.getD 3 0 ≠ 7))) ∧
    (∀ (hmac : String → List Nat → List Nat) (l : LANPlus) (dgram : List Nat),
      (l.ReceiveMessage hmac dgram).2 ≠ .oob) ∧
    (∀ (hmac : String → List Nat → List Nat) (l : LANPlus) (dgram : List Nat),
      l.active = true → 16 ≤ dgram.length →
      dgram.getD 0 0 = 6 → dgram.getD 3 0 = 7 → dgram.getD 5 0 = 0 →
      le32At dgram 6 = l.sessionID →
      dgram.length < 16 + le16At dgram 14 →
      (l.ReceiveMessage hmac dgram).2 =
        .err "payload length exceeds message size") := by
  refine ⟨Unpack_ne_oob, Unpack_isErr_iff, ReceiveMessage_ne_oob, ?_⟩
  intro hmac l dgram hact h16 hb0 hb3 hpt hsid hlen
  simp only [List.getD_eq_getElem?_getD] at hb0 hb3 hpt
  unfold LANPlus.ReceiveMessage
  rw [hact]
  rw [if_neg (by simp), if_neg (by omega)]
  rw [get?_eq_some_getD (by omega), get?_eq_some_getD (by omega),
    get?_eq_some_getD (by omega), get?_eq_some_getD (by omega),
    readLE32_eq (by omega), readLE32_eq (by omega), readLE16_eq (by omega)]
  simp [hb0, hb3, hpt, hsid, hlen, RMCPPLUS_PAYLOAD_IPMI,
    List.getD_eq_getElem?_getD]

/-- C2 witness: a concrete active 16-byte frame whose declared
payload length (1) overflows the buffer is rejected with the
payload-length error. -/
theorem C2_decode_failure_conditions_witness :
    (LANPlus.ReceiveMessage (fun _ _ => [])
      { sessionID := 0, sequenceNum := 0, authType := 0, username := "",
        password := "", priv := 4, active := true, authenticated := false,
        sent := [] }
      [6, 0, 0, 7, 0, 0, 0, 0, 0, 0, 0, 0, 0, 0, 1, 0]).2 =
        .err "payload length exceeds message size" :=
  C2_decode_failure_conditions.2.2.2 (fun _ _ => []) _ _ rfl
    (by decide) (by decide) (by decide) (by decide) (by decide) (by decide)

/-! ## C8: sequence-number behavior of the RMCP+ client -/

/-- `SendMessage` bumps the single sequence counter by one (modulo
`2 ^ 32`) exactly when the session is active and the write
succeeds. -/
theorem SendMessage_sequenceNum (hmac : String → List Nat → List Nat)
    (writeOK : Bool) (l : LANPlus) (msg : List Nat) :
    ((l.SendMessage hmac writeOK msg).1).sequenceNum =
      if l.active && writeOK then (l.sequenceNum + 1) % 2 ^ 32
      else l.sequenceNum := by
  unfold LANPlus.SendMessage
  cases hact : l.active <;> cases hw : writeOK <;> simp [hact, hw]

/-- Once a received frame passes the length, RMCP-header and
payload-type checks, `ReceiveMessage` stores the frame's sequence
number into the shared counter — before the session id is even
validated — regardless of how the rest of the parse turns out. -/
theorem ReceiveMessage_sequenceNum_overwrite
    (hmac : String → List Nat → List Nat) (l : LANPlus) (dgram : List Nat)
    (hact : l.active = true) (h16 : 16 ≤ dgram.length)
    (hb0 : dgram.getD 0 0 = 6) (hb3 : dgram.getD 3 0 = 7)
    (hpt : dgram.getD 5 0 = 0) :
    ((l.ReceiveMessage hmac dgram).1).sequenceNum = le32At dgram 10 := by
  simp only [List.getD_eq_getElem?_getD] at hb0 hb3 hpt
  unfold LANPlus.ReceiveMessage
  rw [hact]
  rw [if_neg (by simp), if_neg (by omega)]
  rw [get?_eq_some_getD (by omega), get?_eq_some_getD (by omega),
    get?_eq_some_getD (by omega), get?_eq_some_getD (by omega),
    readLE32_eq (by omega), readLE32_eq (by omega), readLE16_eq (by omega)]
  by_cases hsid : le32At dgram 6 ≠ l.sessionID
  · simp [hb0, hb3, hpt, hsid, RMCPPLUS_PAYLOAD_IPMI,
      List.getD_eq_getElem?_getD]
  · by_cases hlen : 16 + le16At dgram 14 > dgram.length
    · simp [hb0, hb3, hpt, hsid, hlen, RMCPPLUS_PAYLOAD_IPMI,
        List.getD_eq_getElem?_getD]
    · have hslice : sliceN dgram 16 (le16At dgram 14) =
          some ((dgram.drop 16).take (le16At dgram 14)) := by
        unfold sliceN
        rw [if_pos (by omega)]
      by_cases hauth : (dgram[4]?.getD 0 ≠ RMCPPLUS_AUTH_NONE ∧
          l.authenticated)
      · by_cases hlen2 : 16 + le16At dgram 14 + 20 > dgram.length
        · simp [hb0, hb3, hpt, hsid, hlen, hslice, hauth, hlen2,
            RMCPPLUS_PAYLOAD_IPMI, List.getD_eq_getElem?_getD]
        · have hslice2 : sliceN dgram (16 + le16At dgram 14) 20 =
              some ((dgram.drop (16 + le16At dgram 14)).take 20) := by
            unfold sliceN
            rw [if_pos (by omega)]
          by_cases hcmp : (dgram.drop (16 + le16At dgram 14)).take 20 =
              hmac l.password (dgram.take (16 + le16At dgram 14))
          · simp [hb0, hb3, hpt, hsid, hlen, hslice, hauth, hlen2, hslice2,
              hcmp, RMCPPLUS_PAYLOAD_IPMI, List.getD_eq_getElem?_getD]
          · simp [hb0, hb3, hpt, hsid, hlen, hslice, hauth, hlen2, hslice2,
              hcmp, RMCPPLUS_PAYLOAD_IPMI, List.getD_eq_getElem?_getD]
      · simp [hb0, hb3, hpt, hsid, hlen, hslice, hauth,
          RMCPPLUS_PAYLOAD_IPMI, List.getD_eq_getElem?_getD]

/-- C8 (corrected): the client keeps one sequence counter shared by
both directions, not one per direction.  `SendMessage` advances it
by one modulo `2 ^ 32`, but `ReceiveMessage` overwrites it with the
received frame's sequence-number field before validating the session
id, so across interleavings of sends and receives the recorded value
can decrease (see `C8_counterexample`). -/
theorem C8_sequence_counter :
    (∀ (hmac : String → List Nat → List Nat) (writeOK : Bool) (l : LANPlus)
      (msg : List Nat),
      ((l.SendMessage hmac writeOK msg).1).sequenceNum =
        if l.active && writeOK then (l.sequenceNum + 1) % 2 ^ 32
        else l.sequenceNum) ∧
    (∀ (hmac : String → List Nat → List Nat) (l : LANPlus) (dgram : List Nat),
      l.active = true → 16 ≤ dgram.length → dgram.getD 0 0 = 6 →
      dgram.getD 3 0 = 7 → dgram.getD 5 0 = 0 →
      ((l.ReceiveMessage hmac dgram).1).sequenceNum = le32At dgram 10) :=
  ⟨SendMessage_sequenceNum, ReceiveMessage_sequenceNum_overwrite⟩

/-- C8 witness: concrete instances — a successful send advances the
counter from 7 to 8, and a received frame carrying sequence number 9
sets the counter to 9. -/
theorem C8_sequence_counter_witness :
    ((LANPlus.SendMessage (fun _ _ => []) true
      { sessionID := 0, sequenceNum := 7, authType := 0, username := "",
        password := "", priv := 4, active := true, authenticated := false,
        sent := [] } []).1).sequenceNum = 8 ∧
    ((LANPlus.ReceiveMessage (fun _ _ => [])
      { sessionID := 0, sequenceNum := 7, authType := 0, username := "",
        password := "", priv := 4, active := true, authenticated := false,
        sent := [] }
      [6, 0, 0, 7, 0, 0, 0, 0, 0, 0, 9, 0, 0, 0, 0, 0]).1).sequenceNum = 9 := by
  constructor
  · have h := C8_sequence_counter.1 (fun _ _ => []) true
      { sessionID := 0, sequenceNum := 7, authType := 0, username := "",
        password := "", priv := 4, active := true, authenticated := false,
        sent := [] } []
    simpa using h
  · have h := C8_sequence_counter.2 (fun _ _ => [])
      { sessionID := 0, sequenceNum := 7, authType := 0, username := "",
        password := "", priv := 4, active := true, authenticated := false,
        sent := [] }
      [6, 0, 0, 7, 0, 0, 0, 0, 0, 0, 9, 0, 0, 0, 0, 0]
      rfl (by decide) (by decide) (by decide) (by decide)
    simpa using h

/-- C8 counterexample: with the counter at 5, receiving a valid
frame that carries sequence number 3 drops the recorded counter to
3, so the sequence counter does not advance monotonically across
interleavings of sends and receives. -/
theorem C8_counterexample :
    ((LANPlus.ReceiveMessage (fun _ _ => [])
      { sessionID := 0, sequenceNum := 5, authType := 0, username := "",
        password := "", priv := 4, active := true, authenticated := false,
        sent := [] }
      [6, 0, 0, 7, 0, 0, 0, 0, 0, 0, 3, 0, 0, 0, 0, 0]).1).sequenceNum = 3 ∧
    (3 : Nat) < 5 := by
  decide

/-! ## C10: the partial client-role handshake -/

/-- C10 (corrected): on a connection whose session is not yet
active, the session-open step always fails — but it fails before any
handshake message is sent, because `SendMessage` rejects the send
while the session is inactive.  The reported error is the wrapped
"session not active", not "not implemented"; no datagram is added to
the trace; and `Connect` consequently always returns an error and
never marks the session active. -/
theorem C10_openSession_always_fails (hmac : String → List Nat → List Nat)
    (writeOK : Bool) (rand : Nat) (l : LANPlus) (hact : l.active = false) :
    (l.openSession hmac writeOK rand).2 =
      .error "failed to send RAKP message: session not active" ∧
    (l.openSession hmac writeOK rand).1.sent = l.sent ∧
    (l.openSession hmac writeOK rand).1.active = false ∧
    ∀ dialOK : Bool,
      (l.Connect hmac dialOK writeOK rand).1.active = false ∧
      ((l.Connect hmac dialOK writeOK rand).2 = .error "dial failed" ∨
       (l.Connect hmac dialOK writeOK rand).2 =
         .error "session open failed: failed to send RAKP message: session not active") := by
  have hopen : l.openSession hmac writeOK rand =
      ({ l with sessionID := rand % 2 ^ 32 },
       .error "failed to send RAKP message: session not active") := by
    unfold LANPlus.openSession LANPlus.SendMessage
    simp [hact]
  refine ⟨by rw [hopen], by rw [hopen], by rw [hopen]; exact hact, ?_⟩
  intro dialOK
  cases dialOK with
  | false => simp [LANPlus.Connect, hact]
  | true =>
    constructor
    · simp [LANPlus.Connect, hopen, hact]
    · right
      simp [LANPlus.Connect, hopen]

/-- C10 witness: the fresh client produced by `NewLANPlus` exhibits
the failure concretely. -/
theorem C10_openSession_always_fails_witness :
    (NewLANPlus.openSession (fun _ _ => []) true 12345).2 =
      .error "failed to send RAKP message: session not active" ∧
    (NewLANPlus.openSession (fun _ _ => []) true 12345).1.sent = [] ∧
    (NewLANPlus.Connect (fun _ _ => []) true true 12345).1.active = false := by
  have h := C10_openSession_always_fails (fun _ _ => []) true 12345
    NewLANPlus rfl
  exact ⟨h.1, h.2.1, (h.2.2.2 true).1⟩

/-- C10 counterexample: the handshake does not stop "after sending
the first message" and does not report "not implemented" — on a
fresh client the open step sends nothing at all (the sent trace
stays empty) and the error is the wrapped "session not active". -/
theorem C10_counterexample :
    (NewLANPlus.openSession (fun _ _ => []) true 12345).1.sent = [] ∧
    (NewLANPlus.openSession (fun _ _ => []) true 12345).2 ≠
      .error "session establishment not yet implemented" ∧
    (NewLANPlus.openSession (fun _ _ => []) true 12345).2 =
      .error "failed to send RAKP message: session not active" := by
  refine ⟨rfl, ?_, rfl⟩
  intro h
  simp [LANPlus.openSession, LANPlus.SendMessage, NewLANPlus,
    RMCPPLUS_AUTH_HMAC_SHA1] at h

/-! ## IPMI 2.0 simulator: `bmc/ipmi2_simulator.go` -/

/-- `ipmi2Session` from `bmc/ipmi2_simulator.go`. -/
structure Ipmi2Session where
  ID : Nat
  Username : String
  Privilege : Nat
deriving Repr, DecidableEq

/-- The `goipmi.Response` values this repository's handlers return.
Constructors mirror the response forms used in the source:
`goipmi.CommandCompleted`, the error responses, a bare completion
code, and the typed response structs with their completion-code
field (and power state for chassis status). -/
inductive Response where
  | CommandCompleted
  | ErrInvalidCommand
  | ErrInvalidObjCommand
  | ErrUnspecified
  | CompletionCode (code : Nat)
  | ChassisControlResponse (code : Nat)
  | ChassisStatusResponse (code powerState : Nat)
  | SetSystemBootOptionsResponse (code : Nat)
deriving Repr, DecidableEq

/-- Go `map[uint32]*ipmi2Session` assignment `m[k] = v`, on an
association list: observationally, `lookup k` afterwards yields `v`,
other keys are unchanged, and the size grows only when the key was
absent. -/
def mapSet (m : List (Nat × Ipmi2Session)) (k : Nat) (v : Ipmi2Session) :
    List (Nat × Ipmi2Session) :=
  (k, v) :: m.filter (fun p => p.1 ≠ k)

/-- `IPMI2Simulator` from `bmc/ipmi2_simulator.go`; the embedded
`goipmi.Simulator`, mutex and logger carry no state the verified
properties observe. -/
structure IPMI2Simulator where
  sessionSupport : Bool
  users : List (String × String)
  sessions : List (Nat × Ipmi2Session)
deriving Repr, DecidableEq

/-- `NewIPMI2Simulator`: session support on, the default `admin`
user, no sessions. -/
def NewIPMI2Simulator : IPMI2Simulator :=
  { sessionSupport := true, users := [("admin", "password")], sessions := [] }

/-- `handleActivateSession` from `bmc/ipmi2_simulator.go`: allocate
id `len(sessions) + 1` (a `uint32`), store an `admin` session at
Administrator privilege (4), return `CommandCompleted`.  The request
message is ignored by the handler. -/
def IPMI2Simulator.handleActivateSession (s : IPMI2Simulator) :
    IPMI2Simulator × Response :=
  let sessionID := (s.sessions.length + 1) % 2 ^ 32
  let sess : Ipmi2Session :=
    { ID := sessionID, Username := "admin", Privilege := 4 }
  ({ s with sessions := mapSet s.sessions sessionID sess }, .CommandCompleted)

/-- `handleCloseSession` from `bmc/ipmi2_simulator.go`: logs and
returns `CommandCompleted`; the session map is not touched and the
request message is not even parsed. -/
def IPMI2Simulator.handleCloseSession (s : IPMI2Simulator) :
    IPMI2Simulator × Response :=
  (s, .CommandCompleted)

/-- C7: every ActivateSession request succeeds with
`CommandCompleted` and adds a session with the freshly allocated id,
bound to user `admin` at Administrator privilege (4), to the
instance's session set. -/
theorem C7_activate_session_admin (s : IPMI2Simulator) :
    (s.handleActivateSession).2 = .CommandCompleted ∧
    (s.handleActivateSession).1.sessions.lookup
        ((s.sessions.length + 1) % 2 ^ 32) =
      some { ID := (s.sessions.length + 1) % 2 ^ 32, Username := "admin",
             Privilege := 4 } := by
  unfold IPMI2Simulator.handleActivateSession mapSet
  exact ⟨rfl, by simp [List.lookup]⟩

/-- C9 (corrected): `handleCloseSession` returns `CommandCompleted`
but never removes anything — the instance state is returned
unchanged, so a session created by ActivateSession is still in the
session set after CloseSession on its id. -/
theorem C9_close_session_keeps_sessions (s : IPMI2Simulator) :
    s.handleCloseSession = (s, .CommandCompleted) ∧
    ((s.handleActivateSession).1.handleCloseSession).1.sessions.lookup
        ((s.sessions.length + 1) % 2 ^ 32) =
      some { ID := (s.sessions.length + 1) % 2 ^ 32, Username := "admin",
             Privilege := 4 } := by
  refine ⟨rfl, ?_⟩
  unfold IPMI2Simulator.handleCloseSession IPMI2Simulator.handleActivateSession
    mapSet
  simp [List.lookup]

/-- C9 counterexample: starting from the fresh simulator, activating
a session (id 1) and then closing id 1 leaves session 1 in the
session set — CloseSession does not destroy it. -/
theorem C9_counterexample :
    ((NewIPMI2Simulator.handleActivateSession).1.handleCloseSession).2 =
      .CommandCompleted ∧
    ((NewIPMI2Simulator.handleActivateSession).1.handleCloseSession).1.sessions.lookup 1 =
      some { ID := 1, Username := "admin", Privilege := 4 } := by
  decide

/-! ## Chassis and boot-option handlers: the servers in packages
`bmc` and `ipmi` -/

/-- Modelled from the spec: the `vsphere.BootDevice` values of the
repository's `vsphere` package, which is not under `src/`; the spec
(§6) gives `SetNextBoot(vm, device ∈ {HDD, CDROM, PXE, Floppy})`. -/
inductive BootDevice where
  | HDD
  | CDROM
  | PXE
  | Floppy
deriving Repr, DecidableEq

/-- A hypervisor-control call made by a handler, in order. -/
inductive HypCall where
  | PowerOn
  | PowerOff
  | Reset
  | GetPowerState
  | SetNextBoot (d : BootDevice)
deriving Repr, DecidableEq

/-- Outcome oracle for the `vsphere.Client` calls a handler makes:
`true` means the call succeeds. -/
structure VsClient where
  powerOnOK : Bool
  powerOffOK : Bool
  resetOK : Bool
  getPowerStateOK : Bool
  powerState : String
  setNextBootOK : Bool
deriving Repr, DecidableEq

/-- Modelled from the spec: chassis-control code for PowerDown in
the external `goipmi` library (standard IPMI chassis control table,
corroborated by the raw `case 0x00` in the older handler). -/
def ControlPowerDown : Nat := 0

/-- Modelled from the spec: chassis-control code for PowerUp
(standard IPMI value 0x01). -/
def ControlPowerUp : Nat := 1

/-- Modelled from the spec: chassis-control code for PowerCycle
(standard IPMI value 0x02). -/
def ControlPowerCycle : Nat := 2

/-- Modelled from the spec: chassis-control code for HardReset
(standard IPMI value 0x03). -/
def ControlPowerHardReset : Nat := 3

/-- Modelled from the spec: the boot-flags parameter selector of
SetSystemBootOptions (standard IPMI value 5, `goipmi.BootParamBootFlags`). -/
def BootParamBootFlags : Nat := 5

/-- Modelled from the spec: `goipmi.BootDeviceNone` (no override),
standard IPMI boot-device selector byte 0x00. -/
def BootDeviceNone : Nat := 0x00

/-- Modelled from the spec: `goipmi.BootDevicePxe`, standard IPMI
boot-device selector byte 0x04. -/
def BootDevicePxe : Nat := 0x04

/-- Modelled from the spec: `goipmi.BootDeviceDisk`, standard IPMI
boot-device selector byte 0x08. -/
def BootDeviceDisk : Nat := 0x08

/-- Modelled from the spec: `goipmi.BootDeviceCdrom`, standard IPMI
boot-device selector byte 0x14. -/
def BootDeviceCdrom : Nat := 0x14

/-- Modelled from the spec: `goipmi.BootDeviceFloppy`, standard IPMI
boot-device selector byte 0x3c. -/
def BootDeviceFloppy : Nat := 0x3c

/-- `goipmi.ChassisControlRequest`: the chassis-control code byte. -/
structure ChassisControlRequest where
  ChassisControl : Nat
deriving Repr, DecidableEq

/-- `goipmi.SetSystemBootOptionsRequest`: parameter selector and
parameter data bytes. -/
structure SetSystemBootOptionsRequest where
  Param : Nat
  Data : List Nat
deriving Repr, DecidableEq

namespace Bmc

/-- `Server.handleChassisControl` from the server in package `bmc`.
The input is the parsed request (`none` when `m.Request` fails).
The result pairs the response with the trace of hypervisor calls in
the order they are made; call outcomes come from the `VsClient`
oracle. -/
def Server.handleChassisControl (c : VsClient)
    (req : Option ChassisControlRequest) : Response × List HypCall :=
  match req with
  | none => (.ErrInvalidCommand, [])
  | some r =>
    if r.ChassisControl = ControlPowerDown then
      if c.powerOffOK then (.CommandCompleted, [.PowerOff])
      else (.ErrUnspecified, [.PowerOff])
    else if r.ChassisControl = ControlPowerUp then
      if c.powerOnOK then (.CommandCompleted, [.PowerOn])
      else (.ErrUnspecified, [.PowerOn])
    else if r.ChassisControl = ControlPowerHardReset then
      if c.resetOK then (.CommandCompleted, [.Reset])
      else (.ErrUnspecified, [.Reset])
    else if r.ChassisControl = ControlPowerCycle then
      if c.powerOffOK then
        if c.powerOnOK then (.CommandCompleted, [.PowerOff, .PowerOn])
        else (.ErrUnspecified, [.PowerOff, .PowerOn])
      else (.ErrUnspecified, [.PowerOff])
    else (.ErrInvalidCommand, [])

/-- `Server.handleSetSystemBootOptions` from the server in package
`bmc`.  `none` as a result models the Go panic when `req.Data[1]` is
read out of bounds; note the source compares `req.Data[1]` against
the boot-device constants without applying the 0x3F mask its comment
speaks of. -/
def Server.handleSetSystemBootOptions (c : VsClient)
    (req : Option SetSystemBootOptionsRequest) :
    Option (Response × List HypCall) :=
  match req with
  | none => some (.ErrUnspecified, [])
  | some r =>
    if r.Param ≠ BootParamBootFlags then
      some (.SetSystemBootOptionsResponse 0, [])
    else
      match r.Data.get? 1 with
      | none => none
      | some d =>
        if d = BootDeviceNone then
          some (.SetSystemBootOptionsResponse 0, [])
        else if d = BootDeviceDisk then
          if c.setNextBootOK then
            some (.SetSystemBootOptionsResponse 0, [.SetNextBoot .HDD])
          else some (.ErrUnspecified, [.SetNextBoot .HDD])
        else if d = BootDeviceCdrom then
          if c.setNextBootOK then
            some (.SetSystemBootOptionsResponse 0, [.SetNextBoot .CDROM])
          else some (.ErrUnspecified, [.SetNextBoot .CDROM])
        else if d = BootDevicePxe then
          if c.setNextBootOK then
            some (.SetSystemBootOptionsResponse 0, [.SetNextBoot .PXE])
          else some (.ErrUnspecified, [.SetNextBoot .PXE])
        else if d = BootDeviceFloppy then
          if c.setNextBootOK then
            some (.SetSystemBootOptionsResponse 0, [.SetNextBoot .Floppy])
          else some (.ErrUnspecified, [.SetNextBoot .Floppy])
        else some (.ErrInvalidObjCommand, [])

end Bmc

namespace IpmiV1

/-- `Server.handleSetSystemBootOptions` from the older server in
package `ipmi`: this version does mask the boot-device byte with
0x3F but reports failures with the bare completion code 0x01. -/
def Server.handleSetSystemBootOptions (c : VsClient)
    (req : Option SetSystemBootOptionsRequest) :
    Option (Response × List HypCall) :=
  match req with
  | none => some (.CompletionCode 1, [])
  | some r =>
    if r.Param ≠ BootParamBootFlags then
      some (.SetSystemBootOptionsResponse 0, [])
    else
      match r.Data.get? 1 with
      | none => none
      | some dRaw =>
        let d := dRaw &&& 0x3F
        if d = BootDeviceNone then
          some (.SetSystemBootOptionsResponse 0, [])
        else if d = BootDeviceDisk then
          if c.setNextBootOK then
            some (.SetSystemBootOptionsResponse 0, [.SetNextBoot .HDD])
          else some (.CompletionCode 1, [.SetNextBoot .HDD])
        else if d = BootDeviceCdrom then
          if c.setNextBootOK then
            some (.SetSystemBootOptionsResponse 0, [.SetNextBoot .CDROM])
          else some (.CompletionCode 1, [.SetNextBoot .CDROM])
        else if d = BootDevicePxe then
          if c.setNextBootOK then
            some (.SetSystemBootOptionsResponse 0, [.SetNextBoot .PXE])
          else some (.CompletionCode 1, [.SetNextBoot .PXE])
        else if d = BootDeviceFloppy then
          if c.setNextBootOK then
            some (.SetSystemBootOptionsResponse 0, [.SetNextBoot .Floppy])
          else some (.CompletionCode 1, [.SetNextBoot .Floppy])
        else some (.CompletionCode 1, [])

end IpmiV1

/-- C3: for every PowerCycle request, PowerOff is invoked first; if
it fails, PowerOn is never invoked and the response is Unspecified;
if PowerOff succeeds and PowerOn fails the response is Unspecified;
if both succeed the response is CommandCompleted.  Stated as a full
characterization over the hypervisor-outcome oracle. -/
theorem C3_power_cycle (c : VsClient) :
    Bmc.Server.handleChassisControl c (some { ChassisControl := ControlPowerCycle }) =
      if c.powerOffOK then
        if c.powerOnOK then (.CommandCompleted, [.PowerOff, .PowerOn])
        else (.ErrUnspecified, [.PowerOff, .PowerOn])
      else (.ErrUnspecified, [.PowerOff]) := by
  cases hoff : c.powerOffOK <;> cases hon : c.powerOnOK <;>
    simp [Bmc.Server.handleChassisControl, hoff, hon, ControlPowerCycle,
      ControlPowerDown, ControlPowerUp, ControlPowerHardReset]

/-- C6: a SetSystemBootOptions request whose parameter is not the
boot-flags parameter is acknowledged with a success completion code
and makes no hypervisor call, in both the `bmc` and the older `ipmi`
handler. -/
theorem C6_non_boot_flags_param (c : VsClient)
    (r : SetSystemBootOptionsRequest) (h : r.Param ≠ BootParamBootFlags) :
    Bmc.Server.handleSetSystemBootOptions c (some r) =
      some (.SetSystemBootOptionsResponse 0, []) ∧
    IpmiV1.Server.handleSetSystemBootOptions c (some r) =
      some (.SetSystemBootOptionsResponse 0, []) := by
  constructor <;>
    simp [Bmc.Server.handleSetSystemBootOptions,
      IpmiV1.Server.handleSetSystemBootOptions, h]

/-- C6 witness: a concrete request with parameter 0 is acknowledged
with success and an empty call trace. -/
theorem C6_non_boot_flags_param_witness :
    Bmc.Server.handleSetSystemBootOptions
      { powerOnOK := true, powerOffOK := true, resetOK := true,
        getPowerStateOK := true, powerState := "poweredOn",
        setNextBootOK := true }
      (some { Param := 0, Data := [] }) =
      some (.SetSystemBootOptionsResponse 0, []) ∧
    IpmiV1.Server.handleSetSystemBootOptions
      { powerOnOK := true, powerOffOK := true, resetOK := true,
        getPowerStateOK := true, powerState := "poweredOn",
        setNextBootOK := true }
      (some { Param := 0, Data := [] }) =
      some (.SetSystemBootOptionsResponse 0, []) :=
  C6_non_boot_flags_param _ _ (by decide)

/-- C5: evaluation at the failing input.  A boot-flags request whose
device byte 0x48 carries the persistent bit (0x40) over Disk (0x08)
should, per the claim (and the handler's own masking comment), be
masked to Disk and trigger `SetNextBoot(HDD)` — the older `ipmi`
handler does exactly that — but the `bmc` handler applies no mask,
matches nothing, and answers InvalidObjCommand without calling
`SetNextBoot`. -/
theorem C5_unmasked_boot_device :
    Bmc.Server.handleSetSystemBootOptions
      { powerOnOK := true, powerOffOK := true, resetOK := true,
        getPowerStateOK := true, powerState := "poweredOn",
        setNextBootOK := true }
      (some { Param := 5, Data := [128, 72] }) =
      some (.ErrInvalidObjCommand, []) ∧
    IpmiV1.Server.handleSetSystemBootOptions
      { powerOnOK := true, powerOffOK := true, resetOK := true,
        getPowerStateOK := true, powerState := "poweredOn",
        setNextBootOK := true }
      (some { Param := 5, Data := [128, 72] }) =
      some (.SetSystemBootOptionsResponse 0, [.SetNextBoot .HDD]) := by
  decide

/-! ## Fleet startup address assignment: `main.go` -/

/-- Carry loop of `incrementIP`, walking the byte list from the last
byte towards the first: each byte is incremented as a `uint8`; the
carry stops at the first byte that did not wrap to zero. -/
def incBytesRev : List Nat → List Nat
  | [] => []
  | b :: rest =>
    if (b + 1) % 256 > 0 then (b + 1) % 256 :: rest
    else 0 :: incBytesRev rest

/-- `incrementIP` from `main.go`: increment an IP address by one,
mutating the byte slice in place (the embedding returns the new
value). -/
def incrementIP (ip : List Nat) : List Nat :=
  (incBytesRev ip.reverse).reverse

/-- Loop of `ipRange`, with fuel: Go's loop runs `i = 1, 2, ...`,
stopping when `start` equals `end`, and increments `start` in place
on the way.  The result is the count and the final (mutated) value
of `start`.  `2 ^ 32` steps of fuel cover every 4-byte address,
since `incrementIP` wraps. -/
def ipRangeAux : Nat → List Nat → List Nat → Nat → Nat × List Nat
  | 0, start, _, i => (i, start)
  | fuel + 1, start, endIP, i =>
    if start = endIP then (i, start)
    else ipRangeAux fuel (incrementIP start) endIP (i + 1)

/-- `ipRange` from `main.go`: counts the addresses from `start` to
`endIP` inclusive.  The second component is the value left in the
caller's `start` slice, which the loop has advanced all the way to
`endIP` — Go's `incrementIP(start)` mutates the shared backing
array. -/
def ipRange (start endIP : List Nat) : Nat × List Nat :=
  ipRangeAux (2 ^ 32) start endIP 1

/-- The values `currentIP` holds at each `ipmi.NewServer` call of
the startup loop in `main`: the servers are created with the
current value, which is then incremented in place for the next VM. -/
def serverIPsAtCreation : Nat → List Nat → List (List Nat)
  | 0, _ => []
  | n + 1, cur => cur :: serverIPsAtCreation n (incrementIP cur)

/-- `incrementIP` applied `n` times. -/
def iterIncrement : Nat → List Nat → List Nat
  | 0, ip => ip
  | n + 1, ip => iterIncrement n (incrementIP ip)

/-- The address computations of `main` in `main.go`: parse the
configured range, call `ipRange` (which destroys `startIP`), abort
when the count is short, then create one server per VM from the
single shared `currentIP` slice, incrementing it in place after each
creation.  The result is the list of creation-time values of
`currentIP` and its final value — the one every server's aliased
`ip` field refers to once the loop ends. -/
def mainAssignIPs (vms : Nat) (startCfg endCfg : List Nat) :
    Option (List (List Nat) × List Nat) :=
  let r := ipRange startCfg endCfg
  if r.1 < vms then none
  else some (serverIPsAtCreation vms r.2, iterIncrement vms r.2)

/-- Numeric value of an IP address given as base-256 digits. -/
def ipVal (l : List Nat) : Nat :=
  l.foldl (fun acc b => acc * 256 + b) 0

/-- Membership of an address in the configured contiguous range. -/
def inRange (ip start endIP : List Nat) : Prop :=
  ipVal start ≤ ipVal ip ∧ ipVal ip ≤ ipVal endIP

instance (ip start endIP : List Nat) : Decidable (inRange ip start endIP) := by
  unfold inRange
  infer_instance

/-- C4: evaluation at the failing input — two VMs and the range
10.0.0.1 – 10.0.0.3.  `ipRange` has already advanced the `startIP`
slice to 10.0.0.3, so the loop hands out 10.0.0.3 and then 10.0.0.4,
the latter outside the configured range; and because every server
aliases the same slice, after the loop both servers' `ip` fields
read the final value 10.0.0.5, also outside the range and not
distinct. -/
theorem C4_assignment_evaluation :
    (ipRange [10, 0, 0, 1] [10, 0, 0, 3]).2 = [10, 0, 0, 3] ∧
    mainAssignIPs 2 [10, 0, 0, 1] [10, 0, 0, 3] =
      some ([[10, 0, 0, 3], [10, 0, 0, 4]], [10, 0, 0, 5]) ∧
    ¬ inRange [10, 0, 0, 4] [10, 0, 0, 1] [10, 0, 0, 3] ∧
    ¬ inRange [10, 0, 0, 5] [10, 0, 0, 1] [10, 0, 0, 3] := by
  refine ⟨?_, ?_, by decide, by decide⟩ <;> rfl

end VBMC
